import Mathlib

/-
Verification of the vc-go signature subsystem against its specification.

The development shallowly embeds the Go sources:
  - internal/testutil/signatureutil/internal/signer/ecdsa.go (multi-curve ECDSA signer),
  - signature/signer/signer_interop.go (wrapTime),
  - the crypto-wrapper adapter and linked-data-proof manager, whose production
    sources are absent from the given tree (only their tests are present); those
    are modelled from the specification, as marked in their doc comments.

Byte strings are List Nat (each entry one byte), machine integers are Nat,
fallible Go functions return Except, and a Go panic is modelled as Option.none.
External collaborators (crypto/rand, the hash functions, jwksupport.JWKFromKey,
elliptic.Marshal, the canonicalizer, the key resolver) are parameters of the
embedded functions.
-/

namespace VCGo

/-- Fuel-driven base-256 encoder; the fuel makes the recursion structural so
the kernel can evaluate it. Called with fuel ≥ n it computes the minimal
big-endian byte string of n. -/
def natToBytesAux : Nat → Nat → List Nat
  | _, 0 => []
  | 0, _ + 1 => []
  | fuel + 1, n + 1 => natToBytesAux fuel ((n + 1) / 256) ++ [(n + 1) % 256]

/-- Big-endian minimal byte encoding of a natural number, as produced by
Go math/big Int.Bytes: no leading zero bytes, and the empty string for 0. -/
def natToBytes (n : Nat) : List Nat :=
  natToBytesAux n n

/-- Big-endian interpretation of a byte string. -/
def bytesToNat (bs : List Nat) : Nat :=
  bs.foldl (fun acc b => acc * 256 + b) 0

theorem natToBytesAux_fuel_irrel : ∀ fuel fuel₂ n : Nat, n ≤ fuel → n ≤ fuel₂ →
    natToBytesAux fuel n = natToBytesAux fuel₂ n := by
  intro fuel
  induction fuel with
  | zero =>
    intro fuel₂ n h1 _
    have : n = 0 := Nat.le_zero.mp h1
    subst this
    cases fuel₂ <;> rfl
  | succ f ih =>
    intro fuel₂ n h1 h2
    cases n with
    | zero => cases fuel₂ <;> rfl
    | succ m =>
      cases fuel₂ with
      | zero => omega
      | succ f₂ =>
        show natToBytesAux f ((m + 1) / 256) ++ _ = natToBytesAux f₂ ((m + 1) / 256) ++ _
        have hd : (m + 1) / 256 ≤ m := by
          have := Nat.div_lt_self (Nat.succ_pos m) (by norm_num : 1 < 256)
          omega
        rw [ih f₂ ((m + 1) / 256) (by omega) (by omega)]

theorem natToBytes_zero : natToBytes 0 = [] := rfl

theorem natToBytes_pos (n : Nat) (h : n ≠ 0) :
    natToBytes n = natToBytes (n / 256) ++ [n % 256] := by
  cases n with
  | zero => exact absurd rfl h
  | succ m =>
    show natToBytesAux m ((m + 1) / 256) ++ _ = natToBytesAux ((m + 1) / 256) ((m + 1) / 256) ++ _
    have hd : (m + 1) / 256 ≤ m := by
      have := Nat.div_lt_self (Nat.succ_pos m) (by norm_num : 1 < 256)
      omega
    rw [natToBytesAux_fuel_irrel m ((m + 1) / 256) ((m + 1) / 256) hd (le_refl _)]

/-- The minimal big-endian encoding of n < 256 ^ k fits in k bytes. -/
theorem natToBytes_length_le (k : Nat) : ∀ n : Nat, n < 256 ^ k →
    (natToBytes n).length ≤ k := by
  induction k with
  | zero =>
    intro n hn
    have : n = 0 := Nat.lt_one_iff.mp hn
    simp [this, natToBytes_zero]
  | succ k ih =>
    intro n hn
    by_cases h : n = 0
    · simp [h, natToBytes_zero]
    · rw [natToBytes_pos n h]
      have hdiv : n / 256 < 256 ^ k := by
        apply Nat.div_lt_of_lt_mul
        calc n < 256 ^ (k + 1) := hn
        _ = 256 * 256 ^ k := by ring
      have := ih (n / 256) hdiv
      simp only [List.length_append, List.length_cons, List.length_nil]
      omega

theorem bytesToNat_nil : bytesToNat [] = 0 := rfl

theorem foldl_byte_init (bs : List Nat) : ∀ a : Nat,
    bs.foldl (fun acc b => acc * 256 + b) a =
      a * 256 ^ bs.length + bs.foldl (fun acc b => acc * 256 + b) 0 := by
  induction bs with
  | nil => intro a; simp
  | cons x xs ih =>
    intro a
    simp only [List.foldl_cons, List.length_cons]
    rw [ih (a * 256 + x), ih (0 * 256 + x)]
    ring

theorem bytesToNat_append (xs ys : List Nat) :
    bytesToNat (xs ++ ys) = bytesToNat xs * 256 ^ ys.length + bytesToNat ys := by
  unfold bytesToNat
  rw [List.foldl_append, foldl_byte_init ys (List.foldl (fun acc b => acc * 256 + b) 0 xs)]

theorem bytesToNat_replicate_zero (m : Nat) : bytesToNat (List.replicate m 0) = 0 := by
  induction m with
  | zero => rfl
  | succ m ih =>
    unfold bytesToNat at *
    simp only [List.replicate_succ, List.foldl_cons]
    simpa using ih

/-- Zero-left-padding does not change the big-endian value. -/
theorem bytesToNat_pad (m : Nat) (bs : List Nat) :
    bytesToNat (List.replicate m 0 ++ bs) = bytesToNat bs := by
  rw [bytesToNat_append, bytesToNat_replicate_zero]
  simp

/-- Decoding the minimal big-endian encoding recovers the number. -/
theorem bytesToNat_natToBytes (n : Nat) : bytesToNat (natToBytes n) = n := by
  induction n using Nat.strong_induction_on with
  | _ n ih =>
    by_cases h : n = 0
    · simp [h, natToBytes_zero, bytesToNat_nil]
    · rw [natToBytes_pos n h, bytesToNat_append]
      have hlt : n / 256 < n := Nat.div_lt_self (Nat.pos_of_ne_zero h) (by norm_num)
      rw [ih (n / 256) hlt]
      have : bytesToNat [n % 256] = n % 256 := by
        unfold bytesToNat; simp
      rw [this]
      simp only [List.length_cons, List.length_nil, pow_one]
      omega

/-- The elliptic curves the signer package can receive. The four named curves are
the ones ecdsa.go branches over; `other` stands for any curve outside that table,
carrying its bit size. -/
inductive Curve where
  | p256
  | p384
  | p521
  | secp256k1
  | other (bits : Nat)
deriving DecidableEq

/-- Curve.Params().BitSize of the Go elliptic curves. -/
def Curve.bitSize : Curve → Nat
  | .p256 => 256
  | .p384 => 384
  | .p521 => 521
  | .secp256k1 => 256
  | .other bits => bits

/-- The group order N of each supported curve (standard SEC2/NIST values);
ecdsa.Sign reduces r and s modulo this order. -/
def Curve.order : Curve → Nat
  | .p256 => 115792089210356248762697446949407573529996955224135760342422259061068512044369
  | .p384 => 39402006196394479212279040100143613805079739270465446667946905279627659399113263569398956308152294913554433653942643
  | .p521 => 6864797660130609714981900799081393217269435300143305409394463459185543183397655394245057746333217197532963996371363321113864768612440380340372808892707005449
  | .secp256k1 => 115792089237316195423570985008687907852837564279074904382605163141518161494337
  | .other _ => 0

/-- Whether the curve is in the supported table of ecdsa.go. -/
def Curve.supported : Curve → Bool
  | .other _ => false
  | _ => true

/-- An ecdsa.PublicKey: curve plus affine coordinates. -/
structure PublicKey where
  curve : Curve
  x : Nat
  y : Nat
deriving DecidableEq

/-- An ecdsa.PrivateKey: the embedded public key plus the scalar D. -/
structure PrivateKey where
  pub : PublicKey
  d : Nat
deriving DecidableEq

/-- The crypto.Hash values the signer binds: SHA256, SHA384, SHA512. -/
inductive CHash where
  | sha256
  | sha384
  | sha512
deriving DecidableEq

/-- A JWK as returned by the external jwksupport.JWKFromKey; its JSON content is
outside this subsystem, so it is kept abstract as a tagged record. -/
structure JWK where
  crv : String
  x : Nat
  y : Nat
deriving DecidableEq

/-- P256Alg jwa constant for ECDSA with P-256 keys. -/
def P256Alg : String := "ES256"

/-- P384Alg jwa constant for ECDSA with P-384 keys. -/
def P384Alg : String := "ES384"

/-- P521Alg jwa constant for ECDSA with P-521 keys. -/
def P521Alg : String := "ES521"

/-- Secp256Alg jwa constant for ECDSA with SecP256k1 keys. -/
def Secp256Alg : String := "ES256K"

/-- The ECDSASigner struct of ecdsa.go. -/
structure ECDSASigner where
  privateKey : PrivateKey
  PubKey : PublicKey
  PubKeyJWK : JWK
  pubKeyBytes : List Nat
  hash : CHash
  alg : String
deriving DecidableEq

/-- newECDSASigner: exports the public key as JWK (external, fallible), marshals
the public point (external elliptic.Marshal), and fills the struct. -/
def newECDSASigner (jwkFromKey : PublicKey → Except String JWK)
    (marshal : PublicKey → List Nat)
    (privKey : PrivateKey) (pubKey : PublicKey) (hash : CHash) (alg : String) :
    Except String ECDSASigner :=
  match jwkFromKey pubKey with
  | .error e => .error e
  | .ok pubJWK => .ok {
      privateKey := privKey
      PubKey := pubKey
      PubKeyJWK := pubJWK
      pubKeyBytes := marshal pubKey
      hash := hash
      alg := alg }

/-- GetECDSAP256Signer. -/
def GetECDSAP256Signer (jwkFromKey : PublicKey → Except String JWK)
    (marshal : PublicKey → List Nat) (privKey : PrivateKey) : Except String ECDSASigner :=
  newECDSASigner jwkFromKey marshal privKey privKey.pub .sha256 P256Alg

/-- GetECDSAP384Signer. -/
def GetECDSAP384Signer (jwkFromKey : PublicKey → Except String JWK)
    (marshal : PublicKey → List Nat) (privKey : PrivateKey) : Except String ECDSASigner :=
  newECDSASigner jwkFromKey marshal privKey privKey.pub .sha384 P384Alg

/-- GetECDSAP521Signer. -/
def GetECDSAP521Signer (jwkFromKey : PublicKey → Except String JWK)
    (marshal : PublicKey → List Nat) (privKey : PrivateKey) : Except String ECDSASigner :=
  newECDSASigner jwkFromKey marshal privKey privKey.pub .sha512 P521Alg

/-- GetECDSASecp256k1Signer. -/
def GetECDSASecp256k1Signer (jwkFromKey : PublicKey → Except String JWK)
    (marshal : PublicKey → List Nat) (privKey : PrivateKey) : Except String ECDSASigner :=
  newECDSASigner jwkFromKey marshal privKey privKey.pub .sha256 Secp256Alg

/-- NewECDSAP256Signer: generate a key (external crypto/rand, fallible) on P-256. -/
def NewECDSAP256Signer (jwkFromKey : PublicKey → Except String JWK)
    (marshal : PublicKey → List Nat) (genKey : Curve → Except String PrivateKey) :
    Except String ECDSASigner :=
  match genKey .p256 with
  | .error e => .error e
  | .ok privKey => newECDSASigner jwkFromKey marshal privKey privKey.pub .sha256 P256Alg

/-- NewECDSAP384Signer. -/
def NewECDSAP384Signer (jwkFromKey : PublicKey → Except String JWK)
    (marshal : PublicKey → List Nat) (genKey : Curve → Except String PrivateKey) :
    Except String ECDSASigner :=
  match genKey .p384 with
  | .error e => .error e
  | .ok privKey => newECDSASigner jwkFromKey marshal privKey privKey.pub .sha384 P384Alg

/-- NewECDSAP521Signer. -/
def NewECDSAP521Signer (jwkFromKey : PublicKey → Except String JWK)
    (marshal : PublicKey → List Nat) (genKey : Curve → Except String PrivateKey) :
    Except String ECDSASigner :=
  match genKey .p521 with
  | .error e => .error e
  | .ok privKey => newECDSASigner jwkFromKey marshal privKey privKey.pub .sha512 P521Alg

/-- NewECDSASecp256k1Signer. -/
def NewECDSASecp256k1Signer (jwkFromKey : PublicKey → Except String JWK)
    (marshal : PublicKey → List Nat) (genKey : Curve → Except String PrivateKey) :
    Except String ECDSASigner :=
  match genKey .secp256k1 with
  | .error e => .error e
  | .ok privKey => newECDSASigner jwkFromKey marshal privKey privKey.pub .sha256 Secp256Alg

/-- NewECDSASigner: branch on the input curve; any curve outside the table is an
unsupported-curve error. -/
def NewECDSASigner (jwkFromKey : PublicKey → Except String JWK)
    (marshal : PublicKey → List Nat) (genKey : Curve → Except String PrivateKey)
    (curve : Curve) : Except String ECDSASigner :=
  match curve with
  | .p256 => NewECDSAP256Signer jwkFromKey marshal genKey
  | .p384 => NewECDSAP384Signer jwkFromKey marshal genKey
  | .p521 => NewECDSAP521Signer jwkFromKey marshal genKey
  | .secp256k1 => NewECDSASecp256k1Signer jwkFromKey marshal genKey
  | .other _ => .error "unsupported curve"

/-- GetECDSASigner: branch on the curve of the passed private key. -/
def GetECDSASigner (jwkFromKey : PublicKey → Except String JWK)
    (marshal : PublicKey → List Nat) (privKey : PrivateKey) : Except String ECDSASigner :=
  match privKey.pub.curve with
  | .p256 => GetECDSAP256Signer jwkFromKey marshal privKey
  | .p384 => GetECDSAP384Signer jwkFromKey marshal privKey
  | .p521 => GetECDSAP521Signer jwkFromKey marshal privKey
  | .secp256k1 => GetECDSASecp256k1Signer jwkFromKey marshal privKey
  | .other _ => .error "unsupported curve"

/-- The keyBytes computation in signEcdsa: curveBits / 8, plus one when the
division has a remainder, i.e. ceil(curveBits / 8). -/
def keyBytes (curveBits : Nat) : Nat :=
  let k := curveBits / 8
  if curveBits % 8 > 0 then k + 1 else k

/-- The copyPadded closure in signEcdsa: a fresh zero buffer of the given size
with the source copied so it ends at the last byte. When the source is longer
than the size, the Go code slices dest at a negative index and panics; the
panic is modelled as none. -/
def copyPadded (source : List Nat) (size : Nat) : Option (List Nat) :=
  if source.length ≤ size then
    some (List.replicate (size - source.length) 0 ++ source)
  else
    none

/-- signEcdsa: hash the message with the bound hash (external), sign the digest
with ecdsa.Sign and rand.Reader (external, fallible, yielding r and s), then
concatenate the two components, each zero-left-padded to keyBytes bytes.
The outer Option models a Go panic inside copyPadded; the inner Except is the
(signature, error) result. -/
def signEcdsa (hashFn : CHash → List Nat → List Nat)
    (ecdsaSign : PrivateKey → List Nat → Except String (Nat × Nat))
    (msg : List Nat) (privateKey : PrivateKey) (hash : CHash) :
    Option (Except String (List Nat)) :=
  let hashed := hashFn hash msg
  match ecdsaSign privateKey hashed with
  | .error e => some (.error e)
  | .ok (r, s) =>
    let k := keyBytes privateKey.pub.curve.bitSize
    match copyPadded (natToBytes r) k, copyPadded (natToBytes s) k with
    | some rp, some sp => some (.ok (rp ++ sp))
    | _, _ => none

/-- ECDSASigner.Sign delegates to signEcdsa with the cached key and hash. -/
def ECDSASigner.Sign (hashFn : CHash → List Nat → List Nat)
    (ecdsaSign : PrivateKey → List Nat → Except String (Nat × Nat))
    (es : ECDSASigner) (msg : List Nat) : Option (Except String (List Nat)) :=
  signEcdsa hashFn ecdsaSign msg es.privateKey es.hash

/-- ECDSASigner.Alg returns the cached algorithm identifier. -/
def ECDSASigner.Alg (es : ECDSASigner) : String := es.alg

/-- ECDSASigner.PublicKeyBytes returns the cached marshalled point. -/
def ECDSASigner.PublicKeyBytes (es : ECDSASigner) : List Nat := es.pubKeyBytes

/-- The order of each supported curve fits in keyBytes bytes. -/
theorem order_le_pow_keyBytes (c : Curve) (hc : c.supported = true) :
    c.order ≤ 256 ^ keyBytes c.bitSize := by
  cases c with
  | p256 => norm_num [Curve.order, Curve.bitSize, keyBytes]
  | p384 => norm_num [Curve.order, Curve.bitSize, keyBytes]
  | p521 => norm_num [Curve.order, Curve.bitSize, keyBytes]
  | secp256k1 => norm_num [Curve.order, Curve.bitSize, keyBytes]
  | other bits => simp [Curve.supported] at hc

theorem copyPadded_of_le (source : List Nat) (size : Nat) (h : source.length ≤ size) :
    copyPadded source size = some (List.replicate (size - source.length) 0 ++ source) := by
  simp [copyPadded, h]

theorem copyPadded_some_length (source : List Nat) (size : Nat) (out : List Nat)
    (h : copyPadded source size = some out) : out.length = size := by
  unfold copyPadded at h
  split at h
  · injection h with h
    subst h
    simp only [List.length_append, List.length_replicate]
    omega
  · exact absurd h (by simp)

theorem natToBytes_length_le_keyBytes (c : Curve) (hc : c.supported = true)
    (n : Nat) (hn : n < c.order) : (natToBytes n).length ≤ keyBytes c.bitSize :=
  natToBytes_length_le (keyBytes c.bitSize) n
    (lt_of_lt_of_le hn (order_le_pow_keyBytes c hc))

/-- Whenever signEcdsa returns a signature, its byte length is exactly
2 * keyBytes of the curve of the key. -/
theorem signEcdsa_ok_length (hashFn : CHash → List Nat → List Nat)
    (ecdsaSign : PrivateKey → List Nat → Except String (Nat × Nat))
    (msg : List Nat) (privKey : PrivateKey) (hash : CHash) (sig : List Nat)
    (h : signEcdsa hashFn ecdsaSign msg privKey hash = some (.ok sig)) :
    sig.length = 2 * keyBytes privKey.pub.curve.bitSize := by
  unfold signEcdsa at h
  simp only [] at h
  cases hsig : ecdsaSign privKey (hashFn hash msg) with
  | error e =>
    rw [hsig] at h
    simp at h
  | ok rs =>
    obtain ⟨r, s⟩ := rs
    rw [hsig] at h
    simp only at h
    cases hr : copyPadded (natToBytes r) (keyBytes privKey.pub.curve.bitSize) with
    | none => rw [hr] at h; simp at h
    | some rp =>
      cases hs : copyPadded (natToBytes s) (keyBytes privKey.pub.curve.bitSize) with
      | none => rw [hr, hs] at h; simp at h
      | some sp =>
        rw [hr, hs] at h
        simp only [Option.some.injEq, Except.ok.injEq] at h
        subst h
        rw [List.length_append,
          copyPadded_some_length _ _ _ hr, copyPadded_some_length _ _ _ hs]
        omega

/-- When ecdsa.Sign yields (r, s) and both minimal encodings fit in keyBytes
bytes, signEcdsa returns exactly the two zero-left-padded encodings
concatenated. -/
theorem signEcdsa_ok_eq (hashFn : CHash → List Nat → List Nat)
    (ecdsaSign : PrivateKey → List Nat → Except String (Nat × Nat))
    (msg : List Nat) (privKey : PrivateKey) (hash : CHash) (r s : Nat)
    (hsig : ecdsaSign privKey (hashFn hash msg) = .ok (r, s))
    (hrlen : (natToBytes r).length ≤ keyBytes privKey.pub.curve.bitSize)
    (hslen : (natToBytes s).length ≤ keyBytes privKey.pub.curve.bitSize) :
    signEcdsa hashFn ecdsaSign msg privKey hash = some (.ok
      ((List.replicate (keyBytes privKey.pub.curve.bitSize - (natToBytes r).length) 0 ++ natToBytes r) ++
       (List.replicate (keyBytes privKey.pub.curve.bitSize - (natToBytes s).length) 0 ++ natToBytes s))) := by
  unfold signEcdsa
  simp only [hsig]
  rw [copyPadded_of_le _ _ hrlen, copyPadded_of_le _ _ hslen]

/-- C1: For every supported curve and every message, a successful Sign returns
exactly the concatenation of the two ECDSA components r and s, each encoded
big-endian and zero-left-padded to keyBytes = ceil(bitSize/8) bytes (not DER),
hence of byte length exactly 2 * keyBytes: 64 for P-256, 96 for P-384, 132 for
P-521 and 64 for secp256k1. -/
theorem C1_sign_fixed_width_encoding
    (c : Curve) (hc : c.supported = true)
    (hashFn : CHash → List Nat → List Nat)
    (ecdsaSign : PrivateKey → List Nat → Except String (Nat × Nat))
    (msg : List Nat) (privKey : PrivateKey) (hash : CHash)
    (hcurve : privKey.pub.curve = c)
    (r s : Nat) (hr : r < c.order) (hs : s < c.order)
    (hsig : ecdsaSign privKey (hashFn hash msg) = .ok (r, s)) :
    signEcdsa hashFn ecdsaSign msg privKey hash =
      some (.ok ((List.replicate (keyBytes c.bitSize - (natToBytes r).length) 0 ++ natToBytes r) ++
        (List.replicate (keyBytes c.bitSize - (natToBytes s).length) 0 ++ natToBytes s))) ∧
    (∀ sig, signEcdsa hashFn ecdsaSign msg privKey hash = some (.ok sig) →
      sig.length = 2 * keyBytes c.bitSize) ∧
    2 * keyBytes (Curve.bitSize .p256) = 64 ∧
    2 * keyBytes (Curve.bitSize .p384) = 96 ∧
    2 * keyBytes (Curve.bitSize .p521) = 132 ∧
    2 * keyBytes (Curve.bitSize .secp256k1) = 64 := by
  have hrlen := natToBytes_length_le_keyBytes c hc r hr
  have hslen := natToBytes_length_le_keyBytes c hc s hs
  refine ⟨?_, ?_, by decide, by decide, by decide, by decide⟩
  · have := signEcdsa_ok_eq hashFn ecdsaSign msg privKey hash r s hsig
      (by rwa [hcurve]) (by rwa [hcurve])
    rwa [hcurve] at this
  · intro sig hsg
    have := signEcdsa_ok_length hashFn ecdsaSign msg privKey hash sig hsg
    rwa [hcurve] at this

/-- Witness for C1 at the P-256 curve with r = 1, s = 2. -/
theorem C1_sign_fixed_width_encoding_witness :
    signEcdsa (fun _ m => m) (fun _ _ => .ok (1, 2)) []
      ⟨⟨.p256, 0, 0⟩, 0⟩ .sha256 =
      some (.ok ((List.replicate 31 0 ++ [1]) ++ (List.replicate 31 0 ++ [2]))) := by
  have h := C1_sign_fixed_width_encoding .p256 rfl (fun _ m => m) (fun _ _ => .ok (1, 2))
    [] ⟨⟨.p256, 0, 0⟩, 0⟩ .sha256 rfl 1 2 (by decide) (by decide) rfl
  rw [h.1]
  rfl

/-- C10: signEcdsa is panic-free when the private key lies on its declared
(supported) curve: since ecdsa.Sign returns r and s reduced modulo the curve
order, both minimal big-endian encodings fit in keyBytes bytes, so the slice
index size - len(source) in copyPadded is never negative, and Sign returns
either a well-formed signature of length 2 * keyBytes or an error — never the
panic value none. -/
theorem C10_signEcdsa_panic_free
    (hashFn : CHash → List Nat → List Nat)
    (ecdsaSign : PrivateKey → List Nat → Except String (Nat × Nat))
    (msg : List Nat) (privKey : PrivateKey) (hash : CHash)
    (hsupp : privKey.pub.curve.supported = true)
    (hreduced : ∀ r s, ecdsaSign privKey (hashFn hash msg) = .ok (r, s) →
      r < privKey.pub.curve.order ∧ s < privKey.pub.curve.order) :
    (signEcdsa hashFn ecdsaSign msg privKey hash).isSome = true ∧
    (∀ sig, signEcdsa hashFn ecdsaSign msg privKey hash = some (.ok sig) →
      sig.length = 2 * keyBytes privKey.pub.curve.bitSize) := by
  constructor
  · unfold signEcdsa
    simp only []
    cases hsig : ecdsaSign privKey (hashFn hash msg) with
    | error e => simp
    | ok rs =>
      obtain ⟨r, s⟩ := rs
      obtain ⟨hr, hs⟩ := hreduced r s hsig
      simp only [copyPadded_of_le _ _ (natToBytes_length_le_keyBytes _ hsupp r hr),
        copyPadded_of_le _ _ (natToBytes_length_le_keyBytes _ hsupp s hs), Option.isSome_some]
  · intro sig hsg
    exact signEcdsa_ok_length hashFn ecdsaSign msg privKey hash sig hsg

/-- Witness for C10 at the P-256 curve with r = 1, s = 2. -/
theorem C10_signEcdsa_panic_free_witness :
    (signEcdsa (fun _ m => m) (fun _ _ => .ok (1, 2)) []
      ⟨⟨.p256, 0, 0⟩, 0⟩ .sha256).isSome = true := by
  have h := C10_signEcdsa_panic_free (fun _ m => m) (fun _ _ => .ok (1, 2)) []
    ⟨⟨.p256, 0, 0⟩, 0⟩ .sha256 rfl ?_
  · exact h.1
  · intro r s hrs
    simp only [Except.ok.injEq, Prod.mk.injEq] at hrs
    obtain ⟨h1, h2⟩ := hrs
    subst h1
    subst h2
    exact ⟨by decide, by decide⟩

/-- C3: signer construction for any curve outside the supported table fails
with the unsupported-curve error and returns no signer object; a key-generation
failure aborts construction with the error and no partial signer; a
signing-randomness failure returns the error with no signature and no panic. -/
theorem C3_construction_and_randomness_failures
    (jwkFromKey : PublicKey → Except String JWK)
    (marshal : PublicKey → List Nat)
    (genKey : Curve → Except String PrivateKey)
    (hashFn : CHash → List Nat → List Nat)
    (ecdsaSign : PrivateKey → List Nat → Except String (Nat × Nat))
    (msg : List Nat) (e : String) :
    (∀ bits, NewECDSASigner jwkFromKey marshal genKey (.other bits) =
      .error "unsupported curve") ∧
    (∀ privKey bits, privKey.pub.curve = .other bits →
      GetECDSASigner jwkFromKey marshal privKey = .error "unsupported curve") ∧
    (∀ c, c.supported = true → genKey c = .error e →
      NewECDSASigner jwkFromKey marshal genKey c = .error e) ∧
    (∀ privKey hash, ecdsaSign privKey (hashFn hash msg) = .error e →
      signEcdsa hashFn ecdsaSign msg privKey hash = some (.error e)) := by
  refine ⟨fun bits => rfl, ?_, ?_, ?_⟩
  · intro privKey bits h
    simp [GetECDSASigner, h]
  · intro c hc hg
    cases c with
    | p256 => simp [NewECDSASigner, NewECDSAP256Signer, hg]
    | p384 => simp [NewECDSASigner, NewECDSAP384Signer, hg]
    | p521 => simp [NewECDSASigner, NewECDSAP521Signer, hg]
    | secp256k1 => simp [NewECDSASigner, NewECDSASecp256k1Signer, hg]
    | other bits => simp [Curve.supported] at hc
  · intro privKey hash h
    unfold signEcdsa
    simp only [h]

/-- Witness for C3: a failing generator and a failing random source on P-256,
and the unsupported curve of bit size 0. -/
theorem C3_construction_and_randomness_failures_witness :
    NewECDSASigner (fun pk => .ok ⟨"P-256", pk.x, pk.y⟩) (fun _ => [])
      (fun _ => .error "boom") (.other 0) = .error "unsupported curve" ∧
    NewECDSASigner (fun pk => .ok ⟨"P-256", pk.x, pk.y⟩) (fun _ => [])
      (fun _ => .error "boom") .p256 = .error "boom" ∧
    signEcdsa (fun _ m => m) (fun _ _ => .error "boom") []
      ⟨⟨.p256, 0, 0⟩, 0⟩ .sha256 = some (.error "boom") := by
  have h := C3_construction_and_randomness_failures
    (fun pk => .ok ⟨"P-256", pk.x, pk.y⟩) (fun _ => []) (fun _ => .error "boom")
    (fun _ m => m) (fun _ _ => .error "boom") [] "boom"
  exact ⟨h.1 0, h.2.2.1 .p256 rfl rfl, h.2.2.2 ⟨⟨.p256, 0, 0⟩, 0⟩ .sha256 rfl⟩

/-- C4: each per-curve signer binds exactly the fixed hash and
algorithm identifier: P-256 → (SHA-256, ES256), P-384 → (SHA-384, ES384),
secp256k1 → (SHA-256, ES256K), and P-521 → (SHA-512, P521Alg), where P521Alg
is the identifier "ES521" used by the fixtures, which differs from the
conventional "ES512" for that curve/hash pairing. -/
theorem C4_algorithm_hash_table
    (jwkFromKey : PublicKey → Except String JWK)
    (marshal : PublicKey → List Nat)
    (genKey : Curve → Except String PrivateKey) :
    (∀ privKey j, privKey.pub.curve = .p256 → jwkFromKey privKey.pub = .ok j →
      GetECDSASigner jwkFromKey marshal privKey =
        .ok ⟨privKey, privKey.pub, j, marshal privKey.pub, .sha256, P256Alg⟩) ∧
    (∀ privKey j, privKey.pub.curve = .p384 → jwkFromKey privKey.pub = .ok j →
      GetECDSASigner jwkFromKey marshal privKey =
        .ok ⟨privKey, privKey.pub, j, marshal privKey.pub, .sha384, P384Alg⟩) ∧
    (∀ privKey j, privKey.pub.curve = .p521 → jwkFromKey privKey.pub = .ok j →
      GetECDSASigner jwkFromKey marshal privKey =
        .ok ⟨privKey, privKey.pub, j, marshal privKey.pub, .sha512, P521Alg⟩) ∧
    (∀ privKey j, privKey.pub.curve = .secp256k1 → jwkFromKey privKey.pub = .ok j →
      GetECDSASigner jwkFromKey marshal privKey =
        .ok ⟨privKey, privKey.pub, j, marshal privKey.pub, .sha256, Secp256Alg⟩) ∧
    (∀ privKey j, genKey .p256 = .ok privKey → jwkFromKey privKey.pub = .ok j →
      NewECDSAP256Signer jwkFromKey marshal genKey =
        .ok ⟨privKey, privKey.pub, j, marshal privKey.pub, .sha256, P256Alg⟩) ∧
    (∀ privKey j, genKey .p384 = .ok privKey → jwkFromKey privKey.pub = .ok j →
      NewECDSAP384Signer jwkFromKey marshal genKey =
        .ok ⟨privKey, privKey.pub, j, marshal privKey.pub, .sha384, P384Alg⟩) ∧
    (∀ privKey j, genKey .p521 = .ok privKey → jwkFromKey privKey.pub = .ok j →
      NewECDSAP521Signer jwkFromKey marshal genKey =
        .ok ⟨privKey, privKey.pub, j, marshal privKey.pub, .sha512, P521Alg⟩) ∧
    (∀ privKey j, genKey .secp256k1 = .ok privKey → jwkFromKey privKey.pub = .ok j →
      NewECDSASecp256k1Signer jwkFromKey marshal genKey =
        .ok ⟨privKey, privKey.pub, j, marshal privKey.pub, .sha256, Secp256Alg⟩) ∧
    (∀ es : ECDSASigner, es.Alg = es.alg) ∧
    P256Alg = "ES256" ∧ P384Alg = "ES384" ∧ Secp256Alg = "ES256K" ∧
    P521Alg = "ES521" ∧ P521Alg ≠ "ES512" := by
  refine ⟨?_, ?_, ?_, ?_, ?_, ?_, ?_, ?_, fun es => rfl, rfl, rfl, rfl, rfl, by decide⟩
  · intro privKey j h hj
    simp [GetECDSASigner, h, GetECDSAP256Signer, newECDSASigner, hj]
  · intro privKey j h hj
    simp [GetECDSASigner, h, GetECDSAP384Signer, newECDSASigner, hj]
  · intro privKey j h hj
    simp [GetECDSASigner, h, GetECDSAP521Signer, newECDSASigner, hj]
  · intro privKey j h hj
    simp [GetECDSASigner, h, GetECDSASecp256k1Signer, newECDSASigner, hj]
  · intro privKey j h hj
    simp [NewECDSAP256Signer, h, newECDSASigner, hj]
  · intro privKey j h hj
    simp [NewECDSAP384Signer, h, newECDSASigner, hj]
  · intro privKey j h hj
    simp [NewECDSAP521Signer, h, newECDSASigner, hj]
  · intro privKey j h hj
    simp [NewECDSASecp256k1Signer, h, newECDSASigner, hj]

/-- Witness for C4: a concrete P-521 key, showing the bound pair is
(SHA-512, "ES521"). -/
theorem C4_algorithm_hash_table_witness :
    GetECDSASigner (fun pk => .ok ⟨"P-521", pk.x, pk.y⟩) (fun _ => [4])
      ⟨⟨.p521, 0, 0⟩, 0⟩ =
      .ok ⟨⟨⟨.p521, 0, 0⟩, 0⟩, ⟨.p521, 0, 0⟩, ⟨"P-521", 0, 0⟩, [4], .sha512, "ES521"⟩ := by
  have h := C4_algorithm_hash_table (fun pk => .ok ⟨"P-521", pk.x, pk.y⟩) (fun _ => [4])
    (fun _ => .error "unused")
  exact h.2.2.1 ⟨⟨.p521, 0, 0⟩, 0⟩ ⟨"P-521", 0, 0⟩ rfl rfl

/-- Modelled from the spec: the matching ECDSA verifier is code of this
repository that is not under src (only the signer side is given). Per the
spec, verification must reverse the exact fixed-width padding rule to
reconstruct (r, s) before delegating to the underlying curve-verification
primitive; the primitive (ecdsa.Verify over the digest and public key) is an
external collaborator passed as a parameter. -/
def verifyEcdsa (primitive : Nat → Nat → Bool) (curveBits : Nat)
    (sig : List Nat) : Bool :=
  let k := keyBytes curveBits
  if sig.length = 2 * k then
    primitive (bytesToNat (sig.take k)) (bytesToNat (sig.drop k))
  else false

theorem pad_length (bs : List Nat) (k : Nat) (h : bs.length ≤ k) :
    (List.replicate (k - bs.length) 0 ++ bs).length = k := by
  simp only [List.length_append, List.length_replicate]
  omega

/-- C2: for every supported curve and every message, verifying the output of
the signer itself succeeds: the verifier reverses the fixed-width padding rule,
recovers exactly the (r, s) the signer produced, and delegates to the curve
primitive, which accepts them by ECDSA correctness (a hypothesis on the
external primitive). -/
theorem C2_verify_sign_roundtrip
    (c : Curve) (hc : c.supported = true)
    (hashFn : CHash → List Nat → List Nat)
    (ecdsaSign : PrivateKey → List Nat → Except String (Nat × Nat))
    (msg : List Nat) (privKey : PrivateKey) (hash : CHash)
    (hcurve : privKey.pub.curve = c)
    (r s : Nat) (hr : r < c.order) (hs : s < c.order)
    (hsig : ecdsaSign privKey (hashFn hash msg) = .ok (r, s))
    (primitive : Nat → Nat → Bool) (hprim : primitive r s = true)
    (sig : List Nat)
    (hout : signEcdsa hashFn ecdsaSign msg privKey hash = some (.ok sig)) :
    verifyEcdsa primitive c.bitSize sig = true := by
  have hrlen : (natToBytes r).length ≤ keyBytes c.bitSize :=
    natToBytes_length_le_keyBytes c hc r hr
  have hslen : (natToBytes s).length ≤ keyBytes c.bitSize :=
    natToBytes_length_le_keyBytes c hc s hs
  have hval := signEcdsa_ok_eq hashFn ecdsaSign msg privKey hash r s hsig
    (by rwa [hcurve]) (by rwa [hcurve])
  rw [hcurve] at hval
  rw [hout] at hval
  have hsigeq : sig =
      (List.replicate (keyBytes c.bitSize - (natToBytes r).length) 0 ++ natToBytes r) ++
      (List.replicate (keyBytes c.bitSize - (natToBytes s).length) 0 ++ natToBytes s) := by
    simp only [Option.some.injEq, Except.ok.injEq] at hval
    exact hval
  subst hsigeq
  have hlr := pad_length (natToBytes r) (keyBytes c.bitSize) hrlen
  have hls := pad_length (natToBytes s) (keyBytes c.bitSize) hslen
  unfold verifyEcdsa
  simp only []
  rw [if_pos (by rw [List.length_append, hlr, hls]; ring)]
  rw [List.take_left' hlr, List.drop_left' hlr]
  rw [bytesToNat_pad, bytesToNat_pad, bytesToNat_natToBytes, bytesToNat_natToBytes]
  exact hprim

/-- Witness for C2 at the P-256 curve with r = 1, s = 2 and a primitive that
accepts exactly that pair. -/
theorem C2_verify_sign_roundtrip_witness :
    verifyEcdsa (fun r s => r == 1 && s == 2) (Curve.bitSize .p256)
      ((List.replicate 31 0 ++ [1]) ++ (List.replicate 31 0 ++ [2])) = true :=
  C2_verify_sign_roundtrip .p256 rfl (fun _ m => m) (fun _ _ => .ok (1, 2)) []
    ⟨⟨.p256, 0, 0⟩, 0⟩ .sha256 rfl 1 2 (by decide) (by decide) rfl
    (fun r s => r == 1 && s == 2) rfl _ rfl

/-- The verifier.PublicKey resolved for a proof: the suite type tag plus the
JWK key material. -/
structure VerifierPublicKey where
  keyType : String
  jwkKey : Option JWK
deriving DecidableEq

/-- Modelled from the spec: the opaque crypto backend behind the
crypto-wrapper adapter (a kms-go wrapper); the suite package source is absent
from src, only its test is present. signFn produces signature bytes or an
error; verifyFn returns none on success or the error message. -/
structure CryptoBackend where
  signFn : String → Except String String
  verifyFn : VerifierPublicKey → String → String → Option String

/-- Modelled from the spec: the adapter returned by NewCryptoWrapperSigner
holds the backend and nothing else. -/
structure CryptoWrapperSigner where
  backend : CryptoBackend

/-- Modelled from the spec: NewCryptoWrapperSigner wraps the backend behind
the Signer contract. -/
def NewCryptoWrapperSigner (b : CryptoBackend) : CryptoWrapperSigner := ⟨b⟩

/-- Modelled from the spec: Sign forwards the message and returns the backend
signature bytes or error unchanged — no wrapping, no retry. -/
def CryptoWrapperSigner.Sign (s : CryptoWrapperSigner) (msg : String) :
    Except String String :=
  s.backend.signFn msg

/-- Modelled from the spec: the adapter returned by NewCryptoVerifier. -/
structure CryptoVerifier where
  backend : CryptoBackend

/-- Modelled from the spec: NewCryptoVerifier wraps the backend behind the
Verifier contract. -/
def NewCryptoVerifier (b : CryptoBackend) : CryptoVerifier := ⟨b⟩

/-- Modelled from the spec: Verify forwards (publicKey, message, signature)
and returns the backend success/error verbatim. -/
def CryptoVerifier.Verify (v : CryptoVerifier) (pubKey : VerifierPublicKey)
    (msg sig : String) : Option String :=
  v.backend.verifyFn pubKey msg sig

/-- The MockFixedKeyCrypto of the adapter test, with SignVal set: it returns
the fixed signature bytes for every message. -/
def MockFixedKeyCrypto (signVal : String) : CryptoBackend :=
  { signFn := fun _ => .ok signVal, verifyFn := fun _ _ _ => none }

/-- The MockKMSCrypto of the adapter test, with VerifyErr set: verification
always fails with the configured error. -/
def MockKMSCryptoVerifyErr (e : String) : CryptoBackend :=
  { signFn := fun m => .ok m, verifyFn := fun _ _ _ => some e }

/-- C5: the opaque-backend adapter forwards results verbatim: Sign returns
exactly the backend signature bytes or error, Verify returns the backend
success/error with an identical message, with no wrapping or retry; in
particular the mock backend scenarios of the test hold: Sign "msg" against a
backend fixed to "signature" yields exactly ok "signature", and Verify against
a backend failing with "verify error" yields exactly that error message. -/
theorem C5_adapter_forwards_verbatim :
    (∀ b msg, (NewCryptoWrapperSigner b).Sign msg = b.signFn msg) ∧
    (∀ b pubKey msg sig,
      (NewCryptoVerifier b).Verify pubKey msg sig = b.verifyFn pubKey msg sig) ∧
    (NewCryptoWrapperSigner (MockFixedKeyCrypto "signature")).Sign "msg" =
      .ok "signature" ∧
    (NewCryptoVerifier (MockKMSCryptoVerifyErr "verify error")).Verify
      ⟨"", none⟩ "msg" "signature" = some "verify error" :=
  ⟨fun _ _ => rfl, fun _ _ _ _ => rfl, rfl, rfl⟩

/-- A linked-data proof as persisted in the document. -/
structure Proof where
  type : String
  created : Nat
  verificationMethod : String
  proofPurpose : String
  signatureValue : List Nat
deriving DecidableEq

/-- The proof fields that take part in canonicalization: everything except the
signature value, which the canonicalization of the signing and
verification step excludes. -/
structure ProofOptions where
  type : String
  created : Nat
  verificationMethod : String
  proofPurpose : String
deriving DecidableEq

/-- The options view of a proof: the proof without its signature value. -/
def Proof.options (p : Proof) : ProofOptions :=
  ⟨p.type, p.created, p.verificationMethod, p.proofPurpose⟩

/-- A credential document: its (canonicalizable) content plus the ordered
proof sequence. -/
structure Document where
  content : String
  proofs : List Proof
deriving DecidableEq

/-- The LinkedDataProofContext fields the manager consumes. -/
structure LinkedDataProofContext where
  signatureType : String
  created : Nat
  verificationMethod : String
  proofPurpose : String

/-- Modelled from the spec: AddLinkedDataProof (the linked-data-proof manager
is absent from src; only its test fixtures are present). It canonicalizes the
document for the proof being created — excluding the own signature
value, so the canonical bytes are a function of the document content and the
options of the new proof — signs the canonical bytes with the signer, and
appends the finished proof; existing proofs are untouched. -/
def AddLinkedDataProof (canonicalize : String → ProofOptions → List Nat)
    (signFn : List Nat → List Nat) (ctx : LinkedDataProofContext)
    (doc : Document) : Document :=
  let opts : ProofOptions :=
    ⟨ctx.signatureType, ctx.created, ctx.verificationMethod, ctx.proofPurpose⟩
  let sig := signFn (canonicalize doc.content opts)
  { doc with proofs := doc.proofs ++
      [⟨ctx.signatureType, ctx.created, ctx.verificationMethod, ctx.proofPurpose, sig⟩] }

/-- Modelled from the spec: the verification of a single embedded proof:
canonicalize the document for that proof (its own signature value excluded)
and check the signature with the verifier bound to the declared type of the
proof. -/
def verifyProof (canonicalize : String → ProofOptions → List Nat)
    (verifyFn : Proof → List Nat → List Nat → Bool)
    (doc : Document) (p : Proof) : Bool :=
  verifyFn p (canonicalize doc.content p.options) p.signatureValue

/-- Modelled from the spec: VerifyProofs reports a per-proof result list, one
entry per embedded proof in attachment order. -/
def VerifyProofs (canonicalize : String → ProofOptions → List Nat)
    (verifyFn : Proof → List Nat → List Nat → Bool)
    (doc : Document) : List Bool :=
  doc.proofs.map (verifyProof canonicalize verifyFn doc)

/-- A proof with its signature value replaced: the corruption used in the
independence statements. -/
def Proof.withSignature (p : Proof) (bad : List Nat) : Proof :=
  { p with signatureValue := bad }

/-- A document with its proof list replaced and its content untouched. -/
def Document.withProofs (doc : Document) (ps : List Proof) : Document :=
  { doc with proofs := ps }

/-- C6: proof attachment is append-only — attaching a proof leaves every
existing proof unchanged and appends the new one at the end — multiple proofs
from distinct verification methods coexist in attachment order, and corrupting
or removing the signature of one proof does not change the outcome of
any other proof. -/
theorem C6_proofs_append_only_and_independent
    (canon : String → ProofOptions → List Nat)
    (signFn signFn2 : List Nat → List Nat)
    (verifyFn : Proof → List Nat → List Nat → Bool)
    (ctx ctx2 : LinkedDataProofContext) (doc : Document) :
    ((AddLinkedDataProof canon signFn ctx doc).proofs.take doc.proofs.length =
      doc.proofs) ∧
    ((AddLinkedDataProof canon signFn ctx doc).proofs.length =
      doc.proofs.length + 1) ∧
    ((AddLinkedDataProof canon signFn ctx doc).content = doc.content) ∧
    (∃ p1 p2 : Proof,
      (AddLinkedDataProof canon signFn2 ctx2
          (AddLinkedDataProof canon signFn ctx doc)).proofs =
        doc.proofs ++ [p1, p2] ∧
      p1.verificationMethod = ctx.verificationMethod ∧
      p2.verificationMethod = ctx2.verificationMethod) ∧
    (∀ j bad, (hj : j < doc.proofs.length) → ∀ i, i ≠ j →
      (VerifyProofs canon verifyFn (doc.withProofs
        (doc.proofs.set j ((doc.proofs.get ⟨j, hj⟩).withSignature bad))))[i]? =
      (VerifyProofs canon verifyFn doc)[i]?) ∧
    (∀ j p, verifyProof canon verifyFn (doc.withProofs (doc.proofs.eraseIdx j)) p =
      verifyProof canon verifyFn doc p) := by
  refine ⟨?_, by simp [AddLinkedDataProof], rfl, ?_, ?_, fun j p => rfl⟩
  · simp [AddLinkedDataProof]
  · refine ⟨⟨ctx.signatureType, ctx.created, ctx.verificationMethod,
        ctx.proofPurpose, signFn (canon doc.content
          ⟨ctx.signatureType, ctx.created, ctx.verificationMethod, ctx.proofPurpose⟩)⟩,
      ⟨ctx2.signatureType, ctx2.created, ctx2.verificationMethod,
        ctx2.proofPurpose, signFn2 (canon doc.content
          ⟨ctx2.signatureType, ctx2.created, ctx2.verificationMethod, ctx2.proofPurpose⟩)⟩,
      ?_, rfl, rfl⟩
    simp [AddLinkedDataProof]
  · intro j bad hj i hij
    have hset : (doc.proofs.set j
        ((doc.proofs.get ⟨j, hj⟩).withSignature bad))[i]? = doc.proofs[i]? :=
      List.getElem?_set_ne (Ne.symm hij)
    simp only [VerifyProofs, List.getElem?_map, Document.withProofs, hset]
    rfl

/-- A concrete first proof used by the C6 witness. -/
def sampleProof1 : Proof :=
  ⟨"Ed25519Signature2018", 5, "did:123#key1", "assertionMethod", [1]⟩

/-- A concrete second proof used by the C6 witness. -/
def sampleProof2 : Proof :=
  ⟨"Ed25519Signature2018", 5, "did:123#key2", "assertionMethod", [2]⟩

/-- A concrete two-proof document used by the C6 witness. -/
def sampleDoc : Document := ⟨"doc", [sampleProof1, sampleProof2]⟩

/-- Witness for C6: corrupting the signature of the second proof in the
concrete two-proof document leaves the outcome of the first proof unchanged. -/
theorem C6_proofs_append_only_and_independent_witness :
    (VerifyProofs (fun c _ => [c.length]) (fun _ b s => b == s) (sampleDoc.withProofs
      (sampleDoc.proofs.set 1 ((sampleDoc.proofs.get ⟨1, by decide⟩).withSignature [9]))))[0]? =
    (VerifyProofs (fun c _ => [c.length]) (fun _ b s => b == s) sampleDoc)[0]? := by
  have h := C6_proofs_append_only_and_independent (fun c _ => [c.length]) id id
    (fun _ b s => b == s) ⟨"t", 0, "vm1", "pp"⟩ ⟨"t", 0, "vm2", "pp"⟩ sampleDoc
  exact h.2.2.2.2.1 1 [9] (by decide) 0 (by decide)

/-- Splits a character list at the first occurrence of the separator; the
separator itself is dropped. -/
def splitAtSeparator (sep : Char) : List Char → List Char × List Char
  | [] => ([], [])
  | a :: rest =>
    if a = sep then ([], rest)
    else
      let p := splitAtSeparator sep rest
      (a :: p.1, p.2)

/-- Modelled from the spec: during verification the verificationMethod of
each proof is parsed into (issuerIdentity, keyFragment) by splitting
on "#", and the external public-key resolver is invoked as
fetcher(issuerIdentity, "#" + keyFragment); the production code is absent from
src — the test fixture shows the fetcher receiving issuer "did:123" and keyID
"#key1" for the method "did:123#key1". -/
def resolvePublicKey
    (fetcher : String → String → Except String VerifierPublicKey)
    (verificationMethod : String) : Except String VerifierPublicKey :=
  let p := splitAtSeparator '#' verificationMethod.data
  fetcher (String.mk p.1) (String.mk ('#' :: p.2))

theorem splitAtSeparator_append (sep : Char) (l r : List Char) (hl : sep ∉ l) :
    splitAtSeparator sep (l ++ sep :: r) = (l, r) := by
  induction l with
  | nil => simp [splitAtSeparator]
  | cons a l ih =>
    have hne : a ≠ sep := fun h => hl (h ▸ List.mem_cons_self a l)
    have hl2 : sep ∉ l := fun h => hl (List.mem_cons_of_mem a h)
    simp [splitAtSeparator, hne, ih hl2]

/-- C7: the verificationMethod identifier is split on "#" into the issuer
identity and the key fragment, and the public-key resolver receives
(issuerIdentity, "#" + keyFragment); in particular for "did:123#key1" the
fetcher receives issuer "did:123" and keyID "#key1". -/
theorem C7_fetcher_receives_split
    (fetcher : String → String → Except String VerifierPublicKey) :
    (∀ issuerID keyFragment : String, '#' ∉ issuerID.data →
      resolvePublicKey fetcher (issuerID ++ "#" ++ keyFragment) =
        fetcher issuerID ("#" ++ keyFragment)) ∧
    resolvePublicKey fetcher "did:123#key1" = fetcher "did:123" "#key1" := by
  have hgen : ∀ issuerID keyFragment : String, '#' ∉ issuerID.data →
      resolvePublicKey fetcher (issuerID ++ "#" ++ keyFragment) =
        fetcher issuerID ("#" ++ keyFragment) := by
    intro issuerID keyFragment hno
    obtain ⟨l⟩ := issuerID
    obtain ⟨r⟩ := keyFragment
    have hdata : (String.mk l ++ "#" ++ String.mk r).data = l ++ '#' :: r := by
      show (l ++ ['#']) ++ r = l ++ '#' :: r
      simp [List.append_assoc]
    simp only [resolvePublicKey]
    rw [hdata, splitAtSeparator_append '#' l r hno]
    rfl
  refine ⟨hgen, ?_⟩
  have h := hgen "did:123" "key1" (by decide)
  rwa [(by decide : ("did:123" ++ "#" ++ "key1" : String) = "did:123#key1")] at h

/-- Witness for C7 with a concrete fetcher recording its two arguments. -/
theorem C7_fetcher_receives_split_witness :
    resolvePublicKey (fun issuerID keyID => .error (issuerID ++ "|" ++ keyID))
      "did:123#key1" = .error "did:123|#key1" := by
  have h := (C7_fetcher_receives_split
    (fun issuerID keyID => .error (issuerID ++ "|" ++ keyID))).2
  rw [h]
  rfl

/-- The PublicKeyFetcher closure built by the two-proof test fixture in the
repository: it returns the key for "#key1" and for "#key2", and panics with
"invalid keyID" on every other key identifier; the Go panic is modelled as
none, an error return as some (.error _). -/
def twoProofTestFetcher (key1 key2 : JWK) (_issuerID keyID : String) :
    Option (Except String VerifierPublicKey) :=
  if keyID = "#key1" then some (.ok ⟨"Ed25519Signature2018", some key1⟩)
  else if keyID = "#key2" then some (.ok ⟨"Ed25519Signature2018", some key2⟩)
  else none

/-- C8 counterexample: the resolver closure of the repository aborts instead of
returning a recoverable error: at the unknown key identifier "#key3" the
two-proof test fetcher panics (none) rather than producing a
KeyResolutionFailure error, so an unknown key identifier does cause a
crash/abort in the given code. -/
theorem C8_fetcher_panics_counterexample :
    (twoProofTestFetcher ⟨"Ed25519", 1, 2⟩ ⟨"Ed25519", 3, 4⟩
      "did:123" "#key3").isNone = true := by
  decide

/-- Modelled from the spec: per-proof verification with key resolution: the
resolver is consulted with the verification method of the proof; a resolution
failure is a verification failure for that proof, not fatal to the other
proofs and not a crash. -/
def verifyProofResolved (canonicalize : String → ProofOptions → List Nat)
    (fetcher : String → String → Except String VerifierPublicKey)
    (verifyFn : VerifierPublicKey → List Nat → List Nat → Bool)
    (doc : Document) (p : Proof) : Bool :=
  match resolvePublicKey fetcher p.verificationMethod with
  | .error _ => false
  | .ok pubKey =>
    verifyFn pubKey (canonicalize doc.content p.options) p.signatureValue

/-- Modelled from the spec: the resolving variant of VerifyProofs, reporting a
per-proof result list. -/
def VerifyProofsResolved (canonicalize : String → ProofOptions → List Nat)
    (fetcher : String → String → Except String VerifierPublicKey)
    (verifyFn : VerifierPublicKey → List Nat → List Nat → Bool)
    (doc : Document) : List Bool :=
  doc.proofs.map (verifyProofResolved canonicalize fetcher verifyFn doc)

/-- C8 amended: when the public-key resolver returns an error for the
verification method of a proof, that verification fails recoverably — the result
is false and the manager still returns a full per-proof result list — and the
outcome of every other proof is unchanged; however the fetcher closure of the
repository test fixture panics on unknown key identifiers instead of
returning such an error. -/
theorem C8_resolution_failure_recoverable
    (canonicalize : String → ProofOptions → List Nat)
    (fetcher : String → String → Except String VerifierPublicKey)
    (verifyFn : VerifierPublicKey → List Nat → List Nat → Bool)
    (doc : Document) (p : Proof) (e : String)
    (hfail : resolvePublicKey fetcher p.verificationMethod = .error e) :
    verifyProofResolved canonicalize fetcher verifyFn doc p = false ∧
    (VerifyProofsResolved canonicalize fetcher verifyFn doc).length =
      doc.proofs.length ∧
    (∀ j i, i ≠ j →
      (VerifyProofsResolved canonicalize fetcher verifyFn
        (doc.withProofs (doc.proofs.set j p)))[i]? =
      (VerifyProofsResolved canonicalize fetcher verifyFn doc)[i]?) := by
  refine ⟨?_, by simp [VerifyProofsResolved], ?_⟩
  · unfold verifyProofResolved
    rw [hfail]
  · intro j i hij
    have hset : (doc.proofs.set j p)[i]? = doc.proofs[i]? :=
      List.getElem?_set_ne (Ne.symm hij)
    simp only [VerifyProofsResolved, List.getElem?_map, Document.withProofs, hset]
    rfl

/-- Witness for C8 amended: a resolver failing with "key not found" makes the
verification of the proof fail with false rather than crashing. -/
theorem C8_resolution_failure_recoverable_witness :
    verifyProofResolved (fun _ _ => []) (fun _ _ => .error "key not found")
      (fun _ _ _ => true) ⟨"d", []⟩ ⟨"t", 0, "did:123#keyX", "pp", []⟩ = false :=
  (C8_resolution_failure_recoverable (fun _ _ => []) (fun _ _ => .error "key not found")
    (fun _ _ _ => true) ⟨"d", []⟩ ⟨"t", 0, "did:123#keyX", "pp", []⟩
    "key not found" rfl).1

/-- The afgotime.TimeWrapper of the interop path, kept abstract as the RFC3339
text it carries. -/
structure TimeWrapper where
  raw : String
deriving DecidableEq

/-- wrapTime from signer_interop.go: it formats the time as RFC3339 (external
time.Time.Format) and reparses it with the external ParseTimeWrapper, and the
Go line tw, _ := ParseTimeWrapper(...) discards the parse error, returning
only the possibly-nil wrapper; the return type carries no error channel. -/
def wrapTime (parseTimeWrapper : String → Except String TimeWrapper)
    (formatRFC3339 : Nat → String) (t : Nat) : Option TimeWrapper :=
  match parseTimeWrapper (formatRFC3339 t) with
  | .ok tw => some tw
  | .error _ => none

/-- C9 counterexample: at a concrete parse failure, wrapTime returns the nil
wrapper none with no error indication — the parse error "parse error" is
discarded, contradicting the claim that wrapTime reports a parse failure
explicitly. -/
theorem C9_wrapTime_counterexample :
    wrapTime (fun _ => .error "parse error")
      (fun _ => "0001-01-01T00:00:00Z") 0 = none := rfl

/-- C9 amended: wrapTime silently swallows the parse failure: whenever
ParseTimeWrapper fails on the formatted time, wrapTime returns the nil wrapper
with no error indication, so the no-silent-swallow policy does not extend to
this interop time-wrapper conversion. -/
theorem C9_wrapTime_swallows_parse_error
    (parseTimeWrapper : String → Except String TimeWrapper)
    (formatRFC3339 : Nat → String) (t : Nat) (e : String)
    (h : parseTimeWrapper (formatRFC3339 t) = .error e) :
    wrapTime parseTimeWrapper formatRFC3339 t = none := by
  unfold wrapTime
  rw [h]

/-- Witness for C9 amended at a concrete failing parser. -/
theorem C9_wrapTime_swallows_parse_error_witness :
    wrapTime (fun _ => .error "boom") (fun _ => "2024-01-01T00:00:00Z") 3 = none :=
  C9_wrapTime_swallows_parse_error (fun _ => .error "boom")
    (fun _ => "2024-01-01T00:00:00Z") 3 "boom" rfl

end VCGo
